import Mathlib

/-!
# Verification of the slideshow-generator layout and assembly logic

A shallow embedding of the TypeScript slideshow generator.  JavaScript
numbers are modelled as exact rationals (`ℚ`); the spec itself states its
arithmetic guarantees "up to floating-point rounding", and the rational
model captures the intended exact arithmetic.  Side-effecting drawing and
logging calls are modelled as an explicit event trace, and the external
collaborators (filesystem existence checks, the sharp metadata reader and
the output write stream) are modelled as an oracle environment `Env`.
-/

namespace Slideshow

/-- Page-geometry constant `MARGIN = 72` (points). -/
def MARGIN : ℚ := 72

/-- Page-geometry constant `PAGE_WIDTH = 1920`. -/
def PAGE_WIDTH : ℚ := 1920

/-- Page-geometry constant `PAGE_HEIGHT = 1080`. -/
def PAGE_HEIGHT : ℚ := 1080

/-- Font-size constant `CAPTION_FONT_SIZE = 26`. -/
def CAPTION_FONT_SIZE : ℚ := 26

/-- Font-size constant `TITLE_FONT_SIZE = 48`. -/
def TITLE_FONT_SIZE : ℚ := 48

/-- Font-family constant `FONT = "Helvetica"`. -/
def FONT : String := "Helvetica"

/-- `ImageDimensions`: a width/height pair (natural pixel dimensions or
computed fit size). -/
structure ImageDimensions where
  width : ℚ
  height : ℚ
deriving DecidableEq

/-- `calculateImageSize(originalWidth, originalHeight, maxWidth, maxHeight)`:
scale factor is the minimum of the two per-axis ratios; output is the
natural dimensions times the scale factor. -/
def calculateImageSize (originalWidth originalHeight maxWidth maxHeight : ℚ) :
    ImageDimensions :=
  let widthRatio := maxWidth / originalWidth
  let heightRatio := maxHeight / originalHeight
  let scaleFactor := min widthRatio heightRatio
  { width := originalWidth * scaleFactor
    height := originalHeight * scaleFactor }

/-- `ImageData`: one configuration entry, a source path plus an optional
caption.  A JavaScript absent/empty caption is `none` / `some ""`; the code
tests it for truthiness. -/
structure ImageData where
  src : String
  caption : Option String
deriving DecidableEq

/-- `SlideshowConfig`: title, subtitle and the ordered image list.  Each
list slot is an `Option ImageData` because the assembler explicitly guards
against an undefined entry at an index. -/
structure SlideshowConfig where
  title : String
  subtitle : String
  images : List (Option ImageData)
deriving DecidableEq

/-- JavaScript string truthiness for an optional string: present and
non-empty. -/
def truthy (s : Option String) : Bool :=
  s.getD "" ≠ ""

/-- Oracle for the external collaborators: the filesystem existence check
(`Fs.existsSync`), the sharp metadata reader (`none` models both a thrown
error and falsy width/height), and whether the output write stream finishes
successfully (`stream.on finish` versus `stream.on error`). -/
structure Env where
  fileExists : String → Bool
  metadata : String → Option ImageDimensions
  streamOk : Bool

/-- One observable side effect of a run: a console line, a draw command
sent to the PDF writer, a page break (`doc.addPage()`), or a file-system
touch. -/
inductive Event where
  | logInfo (s : String)
  | errorNoImages
  | warnUndefined (i : Nat)
  | warnNotFound (src : String)
  | errorReadingImage (src : String)
  | errorAddingSlide (src : String)
  | errorCreatingPdf
  | readMeta (src : String)
  | statFile (src : String)
  | openStream (path : String)
  | drawText (text : String) (x y width fontSize : ℚ) (font : String)
  | drawImage (src : String) (x y fitWidth fitHeight : ℚ)
  | pageBreak
deriving DecidableEq

/-- `getImageDimensions(imagePath)`: ask sharp for metadata; on failure log
an error naming the path and return `null`. -/
def getImageDimensions (env : Env) (imagePath : String) :
    Option ImageDimensions × List Event :=
  match env.metadata imagePath with
  | some d => (some d, [.readMeta imagePath])
  | none => (none, [.readMeta imagePath, .errorReadingImage imagePath])

/-- `addTitleSlide(doc, title, subtitle?)`: title text at `centerY - 80`
when a subtitle is (truthily) present, else at `centerY - 50`; subtitle at
`centerY - 20`; both full available width, center aligned. -/
def addTitleSlide (title : String) (subtitle : Option String) : List Event :=
  let availableWidth := PAGE_WIDTH - 2 * MARGIN
  let centerY := PAGE_HEIGHT / 2
  let titleY := if truthy subtitle then centerY - 80 else centerY - 50
  let subtitleY := centerY - 20
  [.drawText title MARGIN titleY availableWidth TITLE_FONT_SIZE FONT] ++
    (if truthy subtitle then
      [.drawText (subtitle.getD "") MARGIN subtitleY availableWidth
        TITLE_FONT_SIZE FONT]
    else [])

/-- `addImageSlide(doc, imageData)`: read dimensions (the thrown error on
`null` is caught by the function's own catch, which logs and returns);
otherwise draw the image into the box `(PAGE_WIDTH - 2*MARGIN) ×
(PAGE_HEIGHT - 2*MARGIN - 80)` anchored at the margins — the 80pt caption
band is always reserved — and, when a caption is truthily present, draw it
30pt below the bottom edge of the recomputed fit-size image. -/
def addImageSlide (env : Env) (imageData : ImageData) : List Event :=
  match getImageDimensions env imageData.src with
  | (none, evs) => evs ++ [.errorAddingSlide imageData.src]
  | (some dimensions, evs) =>
    let availableWidth := PAGE_WIDTH - 2 * MARGIN
    let availableHeight := PAGE_HEIGHT - 2 * MARGIN - 80
    let imageX := MARGIN
    let imageY := MARGIN
    let imageSize := calculateImageSize dimensions.width dimensions.height
      availableWidth availableHeight
    evs ++ [.drawImage imageData.src imageX imageY availableWidth availableHeight] ++
      (if truthy imageData.caption then
        [.drawText (imageData.caption.getD "") MARGIN
          (imageY + imageSize.height + 30) availableWidth CAPTION_FONT_SIZE FONT]
      else [])

/-- One iteration of the image loop in `createPdfSlideshow` at index `i`:
skip (with a warning) an undefined entry or a missing file via `continue`;
otherwise add the slide and emit a page break when `i` is not the last
list index. -/
def processImage (env : Env) (config : SlideshowConfig) (i : Nat) : List Event :=
  match config.images.getD i none with
  | none => [.warnUndefined i]
  | some imageData =>
    .statFile imageData.src ::
      (if env.fileExists imageData.src then
        addImageSlide env imageData ++
          (if i < config.images.length - 1 then [.pageBreak] else [])
      else [.warnNotFound imageData.src])

/-- `createPdfSlideshow(config, outputFilename)`: open the output stream,
draw the title slide (followed by a page break) when the title is truthy,
run the image loop over every index, finalize, and report the stream
outcome as the success boolean. -/
def createPdfSlideshow (env : Env) (config : SlideshowConfig)
    (outputFilename : String) : Bool × List Event :=
  let openEvs : List Event := [.openStream ("./dist/" ++ outputFilename)]
  let titleEvs : List Event :=
    if config.title ≠ "" then
      addTitleSlide config.title (some config.subtitle) ++ [.pageBreak]
    else []
  let imageEvs : List Event :=
    (List.range config.images.length).flatMap (processImage env config)
  let finishEvs : List Event :=
    if env.streamOk then
      [.logInfo ("PDF created successfully: " ++ outputFilename)]
    else [.errorCreatingPdf]
  (env.streamOk, openEvs ++ titleEvs ++ imageEvs ++ finishEvs)

/-- Model of a JavaScript `Date` as read by `getTimestamp`: `month` is the
zero-based `getMonth()` value. -/
structure JsDate where
  year : Nat
  month : Nat
  day : Nat
  hours : Nat
  minutes : Nat
  seconds : Nat

/-- JavaScript `s.padStart(2, "0")`. -/
def padStart2 (s : String) : String :=
  if 2 ≤ s.length then s else ⟨List.replicate (2 - s.length) '0'⟩ ++ s

/-- `getTimestamp()`: `YYYYMMDD_HHMMSS` built from the current date, the
two-digit fields zero padded. -/
def getTimestamp (now : JsDate) : String :=
  toString now.year ++ padStart2 (toString (now.month + 1)) ++
    padStart2 (toString now.day) ++ "_" ++ padStart2 (toString now.hours) ++
    padStart2 (toString now.minutes) ++ padStart2 (toString now.seconds)

/-- The regex replace in `main`: every character outside `[a-zA-Z0-9]`
becomes an underscore. -/
def sanitize (s : String) : String :=
  ⟨s.data.map (fun c => if c.isAlphanum then c else '_')⟩

/-- `Data.SLIDESHOW.title?.replace(...) || "slideshow"`: sanitize the title,
falling back to `"slideshow"` when the result is the (falsy) empty
string. -/
def baseNameOf (title : String) : String :=
  let s := sanitize title
  if s = "" then "slideshow" else s

/-- The output filename assembled in `main`. -/
def outputFilenameOf (title : String) (now : JsDate) : String :=
  baseNameOf title ++ "_" ++ getTimestamp now ++ ".pdf"

/-- Result of a run: normal completion, or `process.exit(1)`. -/
inductive RunResult where
  | success
  | exitError
deriving DecidableEq

/-- `main()`: print the banner, reject an empty image list with exit code 1
before any file I/O, otherwise build the filename, run
`createPdfSlideshow` and exit 1 when it reports failure. -/
def main (env : Env) (data : SlideshowConfig) (now : JsDate) :
    RunResult × List Event :=
  let banner : List Event :=
    [.logInfo "PDF Slideshow Generator (TypeScript/Bun)",
     .logInfo "========================================"]
  if data.images.length = 0 then
    (.exitError, banner ++ [.errorNoImages])
  else
    let outputFilename := outputFilenameOf data.title now
    let infoEvs : List Event :=
      [.logInfo ("Title: " ++ (if data.title = "" then "No title" else data.title))] ++
        (if data.subtitle = "" then [] else
          [.logInfo ("Subtitle: " ++ data.subtitle)]) ++
        [.logInfo ("Images to process: " ++ toString data.images.length),
         .logInfo ("Output file: " ++ outputFilename)]
    let r := createPdfSlideshow env data outputFilename
    if r.1 then
      (.success, banner ++ infoEvs ++ r.2 ++
        [.logInfo "Slideshow generated successfully"])
    else
      (.exitError, banner ++ infoEvs ++ r.2 ++
        [.logInfo "Failed to generate slideshow"])

/-- An event that draws visible content on the current page. -/
def isDrawEvent : Event → Bool
  | .drawText _ _ _ _ _ _ => true
  | .drawImage _ _ _ _ _ => true
  | _ => false

/-- An event that touches the filesystem. -/
def isFileIO : Event → Bool
  | .readMeta _ => true
  | .statFile _ => true
  | .openStream _ => true
  | _ => false

/-- Split a trace into the physical pages of the resulting document: a new
document starts with one page and every `pageBreak` starts another. -/
def pagesOf (evs : List Event) : List (List Event) :=
  evs.foldr
    (fun e acc =>
      if e = Event.pageBreak then [] :: acc
      else
        match acc with
        | p :: ps => (e :: p) :: ps
        | [] => [[e]])
    [[]]

/-- A physical page on which nothing is drawn. -/
def isBlankPage (page : List Event) : Bool :=
  page.all (fun e => !isDrawEvent e)

end Slideshow

namespace Slideshow

/-- C1: for positive inputs, `calculateImageSize` returns the natural
dimensions scaled by `s = min (maxWidth/naturalWidth, maxHeight/naturalHeight)`;
consequently the result fits in the box on both axes, preserves the aspect
ratio exactly, and is tight on at least one axis. -/
theorem calculateImageSize_fit_spec (w h W H : ℚ)
    (hw : 0 < w) (hh : 0 < h) (hW : 0 < W) (hH : 0 < H) :
    (calculateImageSize w h W H).width = w * min (W / w) (H / h) ∧
    (calculateImageSize w h W H).height = h * min (W / w) (H / h) ∧
    (calculateImageSize w h W H).width ≤ W ∧
    (calculateImageSize w h W H).height ≤ H ∧
    (calculateImageSize w h W H).width / (calculateImageSize w h W H).height
      = w / h ∧
    ((calculateImageSize w h W H).width = W ∨
      (calculateImageSize w h W H).height = H) := by
  have hs : 0 < min (W / w) (H / h) := lt_min (div_pos hW hw) (div_pos hH hh)
  refine ⟨rfl, rfl, ?_, ?_, ?_, ?_⟩
  · calc w * min (W / w) (H / h) ≤ w * (W / w) :=
          mul_le_mul_of_nonneg_left (min_le_left _ _) hw.le
      _ = W := by field_simp
  · calc h * min (W / w) (H / h) ≤ h * (H / h) :=
          mul_le_mul_of_nonneg_left (min_le_right _ _) hh.le
      _ = H := by field_simp
  · show w * min (W / w) (H / h) / (h * min (W / w) (H / h)) = w / h
    rw [mul_div_mul_right _ _ hs.ne']
  · rcases min_cases (W / w) (H / h) with ⟨hmin, _⟩ | ⟨hmin, _⟩
    · left
      show w * min (W / w) (H / h) = W
      rw [hmin]; field_simp
    · right
      show h * min (W / w) (H / h) = H
      rw [hmin]; field_simp

/-- Witness for `calculateImageSize_fit_spec` at a concrete input. -/
theorem calculateImageSize_fit_spec_witness :
    (calculateImageSize 400 300 200 200).width = 400 * min (200 / 400 : ℚ) (200 / 300) ∧
    (calculateImageSize 400 300 200 200).height = 300 * min (200 / 400 : ℚ) (200 / 300) ∧
    (calculateImageSize 400 300 200 200).width ≤ 200 ∧
    (calculateImageSize 400 300 200 200).height ≤ 200 ∧
    (calculateImageSize 400 300 200 200).width / (calculateImageSize 400 300 200 200).height
      = 400 / 300 ∧
    ((calculateImageSize 400 300 200 200).width = 200 ∨
      (calculateImageSize 400 300 200 200).height = 200) :=
  calculateImageSize_fit_spec 400 300 200 200 (by norm_num) (by norm_num)
    (by norm_num) (by norm_num)

/-- The scale factor computed inside `calculateImageSize`, made explicit. -/
lemma calculateImageSize_eq (w h W H : ℚ) :
    calculateImageSize w h W H =
      { width := w * min (W / w) (H / h), height := h * min (W / w) (H / h) } :=
  rfl

/-- C9: `calculateImageSize` is idempotent for a fixed box: applying it to
its own output with the same `maxWidth`/`maxHeight` returns that output
unchanged. -/
theorem calculateImageSize_idempotent (w h W H : ℚ)
    (hw : 0 < w) (hh : 0 < h) (hW : 0 < W) (hH : 0 < H) :
    calculateImageSize (calculateImageSize w h W H).width
      (calculateImageSize w h W H).height W H = calculateImageSize w h W H := by
  have hs : 0 < min (W / w) (H / h) := lt_min (div_pos hW hw) (div_pos hH hh)
  rw [calculateImageSize_eq w h W H]
  rw [calculateImageSize_eq]
  have h1 : W / (w * min (W / w) (H / h)) = (W / w) / min (W / w) (H / h) := by
    rw [div_div]
  have h2 : H / (h * min (W / w) (H / h)) = (H / h) / min (W / w) (H / h) := by
    rw [div_div]
  have h3 : min ((W / w) / min (W / w) (H / h)) ((H / h) / min (W / w) (H / h))
      = min (W / w) (H / h) / min (W / w) (H / h) := by
    rw [min_div_div_right hs.le]
  simp only [h1, h2, h3, div_self hs.ne']
  simp

/-- Witness for `calculateImageSize_idempotent` at a concrete input. -/
theorem calculateImageSize_idempotent_witness :
    calculateImageSize (calculateImageSize 400 300 200 100).width
      (calculateImageSize 400 300 200 100).height 200 100 =
      calculateImageSize 400 300 200 100 :=
  calculateImageSize_idempotent 400 300 200 100 (by norm_num) (by norm_num)
    (by norm_num) (by norm_num)

/-- C10: for fixed positive natural dimensions, `calculateImageSize` is
monotone in the box (a larger box on both axes gives pointwise larger
output) and homogeneous in the box (scaling the box by `k > 0` scales both
output dimensions by exactly `k`). -/
theorem calculateImageSize_monotone_homogeneous (w h : ℚ)
    (hw : 0 < w) (hh : 0 < h) :
    (∀ W1 H1 W2 H2 : ℚ, W1 ≤ W2 → H1 ≤ H2 →
      (calculateImageSize w h W1 H1).width ≤ (calculateImageSize w h W2 H2).width ∧
      (calculateImageSize w h W1 H1).height ≤ (calculateImageSize w h W2 H2).height) ∧
    (∀ W H k : ℚ, 0 < k →
      calculateImageSize w h (k * W) (k * H) =
        { width := k * (calculateImageSize w h W H).width
          height := k * (calculateImageSize w h W H).height }) := by
  constructor
  · intro W1 H1 W2 H2 hW hH
    have hmin : min (W1 / w) (H1 / h) ≤ min (W2 / w) (H2 / h) :=
      min_le_min (div_le_div_of_nonneg_right hW hw.le)
        (div_le_div_of_nonneg_right hH hh.le)
    exact ⟨mul_le_mul_of_nonneg_left hmin hw.le,
      mul_le_mul_of_nonneg_left hmin hh.le⟩
  · intro W H k hk
    rw [calculateImageSize_eq, calculateImageSize_eq]
    have h1 : k * W / w = k * (W / w) := by ring
    have h2 : k * H / h = k * (H / h) := by ring
    have h3 : min (k * (W / w)) (k * (H / h)) = k * min (W / w) (H / h) := by
      rcases le_total (W / w) (H / h) with hle | hle
      · rw [min_eq_left hle, min_eq_left (mul_le_mul_of_nonneg_left hle hk.le)]
      · rw [min_eq_right hle, min_eq_right (mul_le_mul_of_nonneg_left hle hk.le)]
    rw [h1, h2, h3]
    simp only [ImageDimensions.mk.injEq]
    constructor <;> ring

/-- Witness for `calculateImageSize_monotone_homogeneous` at concrete
inputs. -/
theorem calculateImageSize_monotone_homogeneous_witness :
    ((calculateImageSize 400 300 100 100).width ≤
        (calculateImageSize 400 300 200 150).width ∧
      (calculateImageSize 400 300 100 100).height ≤
        (calculateImageSize 400 300 200 150).height) ∧
    calculateImageSize 400 300 (2 * 100) (2 * 100) =
      { width := 2 * (calculateImageSize 400 300 100 100).width
        height := 2 * (calculateImageSize 400 300 100 100).height } := by
  have h := calculateImageSize_monotone_homogeneous 400 300 (by norm_num) (by norm_num)
  exact ⟨h.1 100 100 200 150 (by norm_num) (by norm_num),
    h.2 100 100 2 (by norm_num)⟩

/-- C7: the title slide uses fixed offsets from the vertical center of the
canvas: `titleY = centerY - 80` with a subtitle, `titleY = centerY - 50`
without, `subtitleY = centerY - 20`; the with-subtitle title position is
strictly higher, and both lines are drawn at `x = MARGIN` over the full
available width `PAGE_WIDTH - 2 * MARGIN`, center aligned. -/
theorem title_slide_layout_spec :
    (∀ title sub, sub ≠ "" →
      addTitleSlide title (some sub) =
        [.drawText title MARGIN (PAGE_HEIGHT / 2 - 80) (PAGE_WIDTH - 2 * MARGIN)
           TITLE_FONT_SIZE FONT,
         .drawText sub MARGIN (PAGE_HEIGHT / 2 - 20) (PAGE_WIDTH - 2 * MARGIN)
           TITLE_FONT_SIZE FONT]) ∧
    (∀ title, addTitleSlide title none =
        [.drawText title MARGIN (PAGE_HEIGHT / 2 - 50) (PAGE_WIDTH - 2 * MARGIN)
           TITLE_FONT_SIZE FONT]) ∧
    (PAGE_HEIGHT / 2 - 80 : ℚ) < PAGE_HEIGHT / 2 - 50 := by
  refine ⟨?_, ?_, by norm_num⟩
  · intro title sub hsub
    simp [addTitleSlide, truthy, hsub]
  · intro title
    simp [addTitleSlide, truthy]

/-- Witness for `title_slide_layout_spec` at a concrete input. -/
theorem title_slide_layout_spec_witness :
    addTitleSlide "t" (some "s") =
      [.drawText "t" MARGIN (PAGE_HEIGHT / 2 - 80) (PAGE_WIDTH - 2 * MARGIN)
         TITLE_FONT_SIZE FONT,
       .drawText "s" MARGIN (PAGE_HEIGHT / 2 - 20) (PAGE_WIDTH - 2 * MARGIN)
         TITLE_FONT_SIZE FONT] :=
  title_slide_layout_spec.1 "t" "s" (by decide)

/-- C6: every image slide reserves the same drawing box — the canvas minus
two margins on each axis minus the fixed 80pt caption band on the vertical
axis — whether or not the image has a caption; a present caption is drawn
at `x = MARGIN` over the full available width, 30pt below the bottom edge
of the recomputed fit-size image (`MARGIN + fitted height + 30`), not below
the reserved box. -/
theorem image_slide_layout_spec :
    (∀ env imageData dims c, env.metadata imageData.src = some dims →
      imageData.caption = some c → c ≠ "" →
      addImageSlide env imageData =
        [.readMeta imageData.src,
         .drawImage imageData.src MARGIN MARGIN (PAGE_WIDTH - 2 * MARGIN)
           (PAGE_HEIGHT - 2 * MARGIN - 80),
         .drawText c MARGIN
           (MARGIN + (calculateImageSize dims.width dims.height
             (PAGE_WIDTH - 2 * MARGIN) (PAGE_HEIGHT - 2 * MARGIN - 80)).height + 30)
           (PAGE_WIDTH - 2 * MARGIN) CAPTION_FONT_SIZE FONT]) ∧
    (∀ env imageData dims, env.metadata imageData.src = some dims →
      imageData.caption = none →
      addImageSlide env imageData =
        [.readMeta imageData.src,
         .drawImage imageData.src MARGIN MARGIN (PAGE_WIDTH - 2 * MARGIN)
           (PAGE_HEIGHT - 2 * MARGIN - 80)]) := by
  constructor
  · intro env imageData dims c hmeta hcap hc
    simp [addImageSlide, getImageDimensions, hmeta, truthy, hcap, hc]
  · intro env imageData dims hmeta hcap
    simp [addImageSlide, getImageDimensions, hmeta, truthy, hcap]

/-- Witness for `image_slide_layout_spec` at a concrete input. -/
theorem image_slide_layout_spec_witness :
    addImageSlide
        { fileExists := fun _ => true,
          metadata := fun _ => some { width := 400, height := 300 },
          streamOk := true }
        { src := "a.jpg", caption := some "cap" } =
      [.readMeta "a.jpg",
       .drawImage "a.jpg" MARGIN MARGIN (PAGE_WIDTH - 2 * MARGIN)
         (PAGE_HEIGHT - 2 * MARGIN - 80),
       .drawText "cap" MARGIN
         (MARGIN + (calculateImageSize 400 300
           (PAGE_WIDTH - 2 * MARGIN) (PAGE_HEIGHT - 2 * MARGIN - 80)).height + 30)
         (PAGE_WIDTH - 2 * MARGIN) CAPTION_FONT_SIZE FONT] :=
  image_slide_layout_spec.1
    { fileExists := fun _ => true,
      metadata := fun _ => some { width := 400, height := 300 },
      streamOk := true }
    { src := "a.jpg", caption := some "cap" }
    { width := 400, height := 300 } "cap" rfl rfl (by decide)

/-- C4: with an empty image list, `main` terminates with the failure exit
and its trace performs no file I/O at all (in particular no output file is
ever opened). -/
theorem empty_images_exit_spec (env : Env) (data : SlideshowConfig)
    (now : JsDate) (h : data.images = []) :
    (main env data now).1 = RunResult.exitError ∧
    ∀ e ∈ (main env data now).2, isFileIO e = false := by
  constructor
  · simp [main, h]
  · intro e he
    simp [main, h] at he
    rcases he with he | he | he <;> simp [he, isFileIO]

/-- Witness for `empty_images_exit_spec` at a concrete input. -/
theorem empty_images_exit_spec_witness :
    (main
        { fileExists := fun _ => true, metadata := fun _ => none,
          streamOk := true }
        { title := "t", subtitle := "", images := [] }
        { year := 2026, month := 9, day := 11, hours := 14, minutes := 5,
          seconds := 9 }).1 = RunResult.exitError ∧
    ∀ e ∈ (main
        { fileExists := fun _ => true, metadata := fun _ => none,
          streamOk := true }
        { title := "t", subtitle := "", images := [] }
        { year := 2026, month := 9, day := 11, hours := 14, minutes := 5,
          seconds := 9 }).2, isFileIO e = false :=
  empty_images_exit_spec _ _ _ rfl

/-- `addImageSlide` never emits a page break. -/
lemma pageBreak_not_mem_addImageSlide (env : Env) (imageData : ImageData) :
    Event.pageBreak ∉ addImageSlide env imageData := by
  unfold addImageSlide getImageDimensions
  rcases env.metadata imageData.src with _ | d
  · simp
  · by_cases hc : truthy imageData.caption <;> simp [hc]

/-- `addTitleSlide` never emits a page break. -/
lemma pageBreak_not_mem_addTitleSlide (title : String) (subtitle : Option String) :
    Event.pageBreak ∉ addTitleSlide title subtitle := by
  unfold addTitleSlide
  by_cases hs : truthy subtitle <;> simp [hs]

/-- Unfolding lemma for `pagesOf` on a cons cell. -/
lemma pagesOf_cons (e : Event) (evs : List Event) :
    pagesOf (e :: evs) =
      if e = Event.pageBreak then [] :: pagesOf evs
      else
        match pagesOf evs with
        | p :: ps => (e :: p) :: ps
        | [] => [[e]] := rfl

/-- `pagesOf` always yields at least one page. -/
lemma pagesOf_ne_nil (evs : List Event) : pagesOf evs ≠ [] := by
  induction evs with
  | nil => simp [pagesOf]
  | cons e evs ih =>
    rw [pagesOf_cons]
    by_cases he : e = Event.pageBreak
    · simp [he]
    · simp only [he, if_false]
      rcases h : pagesOf evs with _ | ⟨p, ps⟩
      · simp
      · simp

/-- The number of physical pages is one more than the number of page
breaks. -/
lemma pagesOf_length (evs : List Event) :
    (pagesOf evs).length = evs.count Event.pageBreak + 1 := by
  induction evs with
  | nil => simp [pagesOf]
  | cons e evs ih =>
    rw [pagesOf_cons]
    by_cases he : e = Event.pageBreak
    · simp [he, List.count_cons, ih]
    · simp only [he, if_false]
      rcases h : pagesOf evs with _ | ⟨p, ps⟩
      · exact absurd h (pagesOf_ne_nil evs)
      · have := ih
        rw [h] at this
        simp only [List.length_cons] at this ⊢
        simp [List.count_cons, he, this]

/-- For an entry that passes the undefined-entry and file-existence checks,
the loop body emits a page break exactly when the index is not the last
list index — whether or not the slide itself could be drawn. -/
lemma pageBreak_mem_processImage_iff (env : Env) (config : SlideshowConfig)
    (i : Nat) (img : ImageData)
    (h1 : config.images.getD i none = some img)
    (h2 : env.fileExists img.src = true) :
    Event.pageBreak ∈ processImage env config i ↔
      i < config.images.length - 1 := by
  unfold processImage
  rw [h1]
  by_cases hlt : i < config.images.length - 1
  · simp [h2, hlt]
  · simp [h2, hlt, pageBreak_not_mem_addImageSlide]

/-- Page-break count of one loop iteration for an entry that passes the
undefined-entry and file-existence checks. -/
lemma count_pageBreak_processImage (env : Env) (config : SlideshowConfig)
    (i : Nat) (img : ImageData)
    (h1 : config.images.getD i none = some img)
    (h2 : env.fileExists img.src = true) :
    (processImage env config i).count Event.pageBreak =
      if i < config.images.length - 1 then 1 else 0 := by
  unfold processImage
  rw [h1]
  have hA := List.count_eq_zero.mpr (pageBreak_not_mem_addImageSlide env img)
  by_cases hlt : i < config.images.length - 1
  · simp [h2, hlt, List.count_cons, List.count_append, hA]
  · simp [h2, hlt, List.count_cons, List.count_append, hA]

/-- Page-break count of the title block. -/
lemma count_pageBreak_title (title : String) (subtitle : Option String) :
    (addTitleSlide title subtitle ++ [Event.pageBreak]).count Event.pageBreak
      = 1 := by
  have hA := List.count_eq_zero.mpr (pageBreak_not_mem_addTitleSlide title subtitle)
  simp [List.count_append, hA]

/-- The trace of `createPdfSlideshow`, written out. -/
lemma createPdfSlideshow_trace (env : Env) (config : SlideshowConfig)
    (fn : String) :
    (createPdfSlideshow env config fn).2 =
      [Event.openStream ("./dist/" ++ fn)] ++
        (if config.title ≠ "" then
          addTitleSlide config.title (some config.subtitle) ++ [Event.pageBreak]
        else []) ++
        (List.range config.images.length).flatMap (processImage env config) ++
        (if env.streamOk then
          [Event.logInfo ("PDF created successfully: " ++ fn)]
        else [Event.errorCreatingPdf]) := rfl

/-- The success boolean of `createPdfSlideshow` is exactly the stream
outcome. -/
lemma createPdfSlideshow_fst (env : Env) (config : SlideshowConfig)
    (fn : String) : (createPdfSlideshow env config fn).1 = env.streamOk := rfl

/-- A draw-text event using the title font size. -/
def isTitleFontText : Event → Bool
  | .drawText _ _ _ _ fs _ => decide (fs = TITLE_FONT_SIZE)
  | _ => false

/-- `addImageSlide` only draws captions in the caption font, never in the
title font. -/
lemma no_titleFont_addImageSlide (env : Env) (img : ImageData) :
    ∀ e ∈ addImageSlide env img, isTitleFontText e = false := by
  intro e he
  unfold addImageSlide getImageDimensions at he
  rcases hm : env.metadata img.src with _ | d <;> rw [hm] at he
  · simp at he
    rcases he with rfl | rfl | rfl <;> rfl
  · by_cases hc : truthy img.caption
    · simp [hc] at he
      rcases he with rfl | rfl | rfl
      · rfl
      · rfl
      · show decide (CAPTION_FONT_SIZE = TITLE_FONT_SIZE) = false
        decide
    · simp [hc] at he
      rcases he with rfl | rfl <;> rfl

/-- The image loop never draws text in the title font. -/
lemma no_titleFont_processImage (env : Env) (config : SlideshowConfig)
    (i : Nat) : ∀ e ∈ processImage env config i, isTitleFontText e = false := by
  intro e he
  unfold processImage at he
  rcases hg : config.images.getD i none with _ | img <;> rw [hg] at he
  · simp at he
    subst he; rfl
  · by_cases hf : env.fileExists img.src
    · simp [hf] at he
      rcases he with rfl | he | he
      · rfl
      · exact no_titleFont_addImageSlide env img e he
      · rcases he with ⟨-, rfl⟩; rfl
    · simp [hf] at he
      rcases he with rfl | rfl <;> rfl

/-- Sum of the per-index page-break counts over the whole loop. -/
lemma sum_map_range_if (n : Nat) (hn : 0 < n) (g : Nat → Nat)
    (hg : ∀ i < n, g i = if i < n - 1 then 1 else 0) :
    ((List.range n).map g).sum = n - 1 := by
  obtain ⟨m, rfl⟩ : ∃ m, n = m + 1 := ⟨n - 1, by omega⟩
  rw [List.range_succ, List.map_append, List.sum_append]
  have hlast : g m = 0 := by
    rw [hg m (by omega)]
    simp
  have hmap : (List.range m).map g = List.replicate m 1 := by
    have hlen : ((List.range m).map g).length = m := by simp
    have hmem : ∀ b ∈ (List.range m).map g, b = 1 := by
      intro b hb
      rw [List.mem_map] at hb
      obtain ⟨i, hi, rfl⟩ := hb
      rw [List.mem_range] at hi
      rw [hg i (by omega)]
      rw [if_pos (show i < m + 1 - 1 by omega)]
    have hrep := List.eq_replicate_of_mem hmem
    rw [hlen] at hrep
    exact hrep
  simp [hmap, hlast]

/-- C3: (i) a title page is drawn iff the title is non-empty (the title-font
text appears in the trace exactly then); (ii) for every entry that reaches
the page-break decision, a page break is emitted iff its original list
index is not the last one; (iii) hence with a non-empty all-valid image
list the number of physical pages is `(1 if title non-empty else 0) +
number of images`, and no page break is emitted after the last image. -/
theorem page_sequencing_spec :
    (∀ (env : Env) (config : SlideshowConfig) (fn : String),
      (∃ y, Event.drawText config.title MARGIN y (PAGE_WIDTH - 2 * MARGIN)
          TITLE_FONT_SIZE FONT ∈ (createPdfSlideshow env config fn).2) ↔
        config.title ≠ "") ∧
    (∀ (env : Env) (config : SlideshowConfig) (i : Nat) (img : ImageData),
      config.images.getD i none = some img → env.fileExists img.src = true →
      (Event.pageBreak ∈ processImage env config i ↔
        i < config.images.length - 1)) ∧
    (∀ (env : Env) (config : SlideshowConfig) (fn : String),
      0 < config.images.length →
      (∀ i < config.images.length, ∃ img,
        config.images.getD i none = some img ∧
        env.fileExists img.src = true ∧
        ∃ d, env.metadata img.src = some d) →
      (pagesOf (createPdfSlideshow env config fn).2).length =
        (if config.title = "" then 0 else 1) + config.images.length ∧
      Event.pageBreak ∉
        processImage env config (config.images.length - 1)) := by
  refine ⟨?_, ?_, ?_⟩
  · intro env config fn
    constructor
    · rintro ⟨y, hy⟩ htitle
      rw [createPdfSlideshow_trace] at hy
      simp [htitle] at hy
      rcases hy with hy | hy
      · obtain ⟨i, -, hmem⟩ := hy
        have hfalse := no_titleFont_processImage env config i _ hmem
        simp [isTitleFontText] at hfalse
      · cases hso : env.streamOk <;> rw [hso] at hy <;> simp at hy
    · intro htitle
      by_cases hsub : truthy (some config.subtitle)
      · refine ⟨PAGE_HEIGHT / 2 - 80, ?_⟩
        rw [createPdfSlideshow_trace]
        simp [htitle, addTitleSlide, hsub]
      · refine ⟨PAGE_HEIGHT / 2 - 50, ?_⟩
        rw [createPdfSlideshow_trace]
        simp [htitle, addTitleSlide, hsub]
  · intro env config i img h1 h2
    exact pageBreak_mem_processImage_iff env config i img h1 h2
  · intro env config fn hn hvalid
    obtain ⟨imgL, h1L, h2L, -⟩ := hvalid (config.images.length - 1) (by omega)
    constructor
    · rw [pagesOf_length, createPdfSlideshow_trace]
      rw [List.count_append, List.count_append, List.count_append]
      have hopen :
          ([Event.openStream ("./dist/" ++ fn)]).count Event.pageBreak = 0 := by
        simp
      have hfin :
          ((if env.streamOk then
            [Event.logInfo ("PDF created successfully: " ++ fn)]
          else [Event.errorCreatingPdf]) : List Event).count Event.pageBreak
            = 0 := by
        cases env.streamOk <;> simp
      have hflat :
          ((List.range config.images.length).flatMap
            (processImage env config)).count Event.pageBreak =
            config.images.length - 1 := by
        rw [List.count_flatMap]
        refine sum_map_range_if config.images.length hn _ ?_
        intro i hi
        obtain ⟨img, hg, hf, -⟩ := hvalid i hi
        exact count_pageBreak_processImage env config i img hg hf
      by_cases htitle : config.title = ""
      · rw [if_pos htitle]
        have hblock : (if config.title ≠ "" then
            addTitleSlide config.title (some config.subtitle) ++ [Event.pageBreak]
          else []) = [] := by simp [htitle]
        rw [hblock, List.count_nil, hopen, hfin, hflat]
        omega
      · rw [if_neg htitle]
        have hblock : (if config.title ≠ "" then
            addTitleSlide config.title (some config.subtitle) ++ [Event.pageBreak]
          else []) =
            addTitleSlide config.title (some config.subtitle) ++
              [Event.pageBreak] := by simp [htitle]
        rw [hblock, hopen, hfin, hflat, count_pageBreak_title]
        omega
    · rw [pageBreak_mem_processImage_iff env config _ imgL h1L h2L]
      omega

/-- Sample environment in which every file exists, every image has
100 × 100 metadata, and the stream finishes. -/
def sampleEnv : Env :=
  { fileExists := fun _ => true,
    metadata := fun _ => some { width := 100, height := 100 },
    streamOk := true }

/-- Sample two-image configuration with a title. -/
def sampleConfig : SlideshowConfig :=
  { title := "T", subtitle := "",
    images := [some { src := "a.jpg", caption := some "c" },
               some { src := "b.jpg", caption := none }] }

/-- Witness for `page_sequencing_spec` at a concrete input. -/
theorem page_sequencing_spec_witness :
    (pagesOf (createPdfSlideshow sampleEnv sampleConfig "o.pdf").2).length =
      (if sampleConfig.title = "" then 0 else 1) + sampleConfig.images.length ∧
    Event.pageBreak ∉
      processImage sampleEnv sampleConfig (sampleConfig.images.length - 1) :=
  page_sequencing_spec.2.2 sampleEnv sampleConfig "o.pdf" (by decide)
    (by
      intro i hi
      have hi2 : i < 2 := by simpa [sampleConfig] using hi
      interval_cases i
      · exact ⟨{ src := "a.jpg", caption := some "c" }, rfl, rfl,
          { width := 100, height := 100 }, rfl⟩
      · exact ⟨{ src := "b.jpg", caption := none }, rfl, rfl,
          { width := 100, height := 100 }, rfl⟩)

/-- Any event of loop iteration `i` appears in the full run trace. -/
lemma mem_createPdfSlideshow_of_mem_processImage (env : Env)
    (config : SlideshowConfig) (fn : String) (i : Nat) (e : Event)
    (hi : i < config.images.length) (he : e ∈ processImage env config i) :
    e ∈ (createPdfSlideshow env config fn).2 := by
  rw [createPdfSlideshow_trace]
  exact List.mem_append_left _ (List.mem_append_right _
    (List.mem_flatMap.mpr ⟨i, List.mem_range.mpr hi, he⟩))

/-- Trace of `addImageSlide` when the metadata reader fails. -/
lemma addImageSlide_metadata_none (env : Env) (img : ImageData)
    (h : env.metadata img.src = none) :
    addImageSlide env img =
      [Event.readMeta img.src, Event.errorReadingImage img.src,
       Event.errorAddingSlide img.src] := by
  simp [addImageSlide, getImageDimensions, h]

/-- When metadata is readable, the image is drawn into the reserved box. -/
lemma drawImage_mem_addImageSlide (env : Env) (img : ImageData)
    (d : ImageDimensions) (h : env.metadata img.src = some d) :
    Event.drawImage img.src MARGIN MARGIN (PAGE_WIDTH - 2 * MARGIN)
      (PAGE_HEIGHT - 2 * MARGIN - 80) ∈ addImageSlide env img := by
  unfold addImageSlide getImageDimensions
  rw [h]
  by_cases hc : truthy img.caption <;> simp [hc]

/-- C5: per-image failures are contained: (i) the run outcome is exactly
the stream outcome, for every environment and configuration — no image
failure affects it; (ii) each failure kind is logged identifying the entry
(index for an undefined entry, path for a missing file or unreadable
metadata, each with its cause event); (iii) every valid entry is drawn
regardless of what happens to the other entries; (iv) `main` exits with
failure exactly when the configuration is empty or the final write
fails. -/
theorem per_image_failure_containment_spec :
    (∀ (env : Env) (config : SlideshowConfig) (fn : String),
      (createPdfSlideshow env config fn).1 = env.streamOk) ∧
    (∀ (env : Env) (config : SlideshowConfig) (fn : String) (i : Nat),
      i < config.images.length →
      (config.images.getD i none = none →
        Event.warnUndefined i ∈ (createPdfSlideshow env config fn).2) ∧
      (∀ img, config.images.getD i none = some img →
        env.fileExists img.src = false →
        Event.warnNotFound img.src ∈ (createPdfSlideshow env config fn).2) ∧
      (∀ img, config.images.getD i none = some img →
        env.fileExists img.src = true → env.metadata img.src = none →
        Event.errorReadingImage img.src ∈ (createPdfSlideshow env config fn).2 ∧
        Event.errorAddingSlide img.src ∈ (createPdfSlideshow env config fn).2)) ∧
    (∀ (env : Env) (config : SlideshowConfig) (fn : String) (i : Nat)
      (img : ImageData) (d : ImageDimensions),
      i < config.images.length →
      config.images.getD i none = some img →
      env.fileExists img.src = true → env.metadata img.src = some d →
      Event.drawImage img.src MARGIN MARGIN (PAGE_WIDTH - 2 * MARGIN)
        (PAGE_HEIGHT - 2 * MARGIN - 80) ∈ (createPdfSlideshow env config fn).2) ∧
    (∀ (env : Env) (data : SlideshowConfig) (now : JsDate),
      (main env data now).1 = RunResult.exitError ↔
        (data.images.length = 0 ∨ env.streamOk = false)) := by
  refine ⟨?_, ?_, ?_, ?_⟩
  · intro env config fn
    exact createPdfSlideshow_fst env config fn
  · intro env config fn i hi
    refine ⟨?_, ?_, ?_⟩
    · intro hg
      apply mem_createPdfSlideshow_of_mem_processImage env config fn i _ hi
      unfold processImage
      rw [hg]
      simp
    · intro img hg hf
      apply mem_createPdfSlideshow_of_mem_processImage env config fn i _ hi
      unfold processImage
      rw [hg]
      simp [hf]
    · intro img hg hf hm
      have hadd := addImageSlide_metadata_none env img hm
      constructor <;>
        (apply mem_createPdfSlideshow_of_mem_processImage env config fn i _ hi
         unfold processImage
         rw [hg]
         simp [hf, hadd])
  · intro env config fn i img d hi hg hf hm
    apply mem_createPdfSlideshow_of_mem_processImage env config fn i _ hi
    unfold processImage
    rw [hg]
    have hd := drawImage_mem_addImageSlide env img d hm
    simp [hf, List.mem_cons, List.mem_append]
    tauto
  · intro env data now
    by_cases hlen : data.images.length = 0
    · simp [main, hlen]
    · cases hso : env.streamOk <;>
        simp [main, hlen, createPdfSlideshow_fst, hso]

/-- Environment in which only `b.jpg` has readable metadata; every file
exists and the stream finishes. -/
def cexEnv : Env :=
  { fileExists := fun _ => true,
    metadata := fun s =>
      if s = "b.jpg" then some { width := 100, height := 100 } else none,
    streamOk := true }

/-- Untitled two-image configuration whose first image has unreadable
metadata under `cexEnv`. -/
def cexConfig : SlideshowConfig :=
  { title := "", subtitle := "",
    images := [some { src := "a.jpg", caption := none },
               some { src := "b.jpg", caption := none }] }

/-- Witness for `per_image_failure_containment_spec` at concrete inputs. -/
theorem per_image_failure_containment_spec_witness :
    (createPdfSlideshow cexEnv cexConfig "o.pdf").1 = cexEnv.streamOk ∧
    (Event.errorReadingImage "a.jpg" ∈
        (createPdfSlideshow cexEnv cexConfig "o.pdf").2 ∧
      Event.errorAddingSlide "a.jpg" ∈
        (createPdfSlideshow cexEnv cexConfig "o.pdf").2) ∧
    Event.drawImage "b.jpg" MARGIN MARGIN (PAGE_WIDTH - 2 * MARGIN)
      (PAGE_HEIGHT - 2 * MARGIN - 80) ∈
        (createPdfSlideshow cexEnv cexConfig "o.pdf").2 ∧
    ((main cexEnv cexConfig
        { year := 2026, month := 9, day := 11, hours := 14, minutes := 5,
          seconds := 9 }).1 = RunResult.exitError ↔
      (cexConfig.images.length = 0 ∨ cexEnv.streamOk = false)) :=
  ⟨per_image_failure_containment_spec.1 cexEnv cexConfig "o.pdf",
   (per_image_failure_containment_spec.2.1 cexEnv cexConfig "o.pdf" 0
      (by decide)).2.2 { src := "a.jpg", caption := none } rfl rfl (by decide),
   per_image_failure_containment_spec.2.2.1 cexEnv cexConfig "o.pdf" 1
     { src := "b.jpg", caption := none } { width := 100, height := 100 }
     (by decide) rfl rfl (by decide),
   per_image_failure_containment_spec.2.2.2 cexEnv cexConfig
     { year := 2026, month := 9, day := 11, hours := 14, minutes := 5,
       seconds := 9 }⟩

/-- C2 counterexample: under `cexEnv`/`cexConfig`, the first entry's file
exists but its dimensions are unreadable; the run nevertheless consumes a
page for it — the output has two physical pages and the first one is blank
(no draw command), containing only that entry's error events. -/
theorem failed_image_blank_page_cex :
    (pagesOf (createPdfSlideshow cexEnv cexConfig "out.pdf").2).length = 2 ∧
    Event.errorAddingSlide "a.jpg" ∈
      ((pagesOf (createPdfSlideshow cexEnv cexConfig "out.pdf").2).getD 0 []) ∧
    isBlankPage
      ((pagesOf (createPdfSlideshow cexEnv cexConfig "out.pdf").2).getD 0 [])
      = true := by
  decide

/-- C2 amended: for an entry whose file exists but whose dimensions cannot
be obtained, the assembler logs the read error and the slide error and
draws nothing, then advances to the next index — but it still emits the
trailing page break whenever the index is not the last one, so the failed
entry does consume a (blank) page. -/
theorem failed_image_pageBreak_amended (env : Env) (config : SlideshowConfig)
    (i : Nat) (img : ImageData)
    (h1 : config.images.getD i none = some img)
    (h2 : env.fileExists img.src = true)
    (h3 : env.metadata img.src = none) :
    processImage env config i =
      [Event.statFile img.src, Event.readMeta img.src,
       Event.errorReadingImage img.src, Event.errorAddingSlide img.src] ++
        (if i < config.images.length - 1 then [Event.pageBreak] else []) := by
  unfold processImage
  rw [h1]
  simp [h2, addImageSlide_metadata_none env img h3]

/-- Witness for `failed_image_pageBreak_amended` at a concrete input. -/
theorem failed_image_pageBreak_amended_witness :
    processImage cexEnv cexConfig 0 =
      [Event.statFile "a.jpg", Event.readMeta "a.jpg",
       Event.errorReadingImage "a.jpg", Event.errorAddingSlide "a.jpg"] ++
        (if 0 < cexConfig.images.length - 1 then [Event.pageBreak] else []) :=
  failed_image_pageBreak_amended cexEnv cexConfig 0
    { src := "a.jpg", caption := none } rfl rfl (by decide)

/-- `sanitize` never changes the length of a string. -/
lemma sanitize_length (s : String) : (sanitize s).length = s.length := by
  show (s.data.map _).length = s.data.length
  exact List.length_map _ _

/-- A string of length zero is empty. -/
lemma string_eq_empty_of_length (s : String) (h : s.length = 0) : s = "" := by
  cases s with
  | mk data =>
    cases data with
    | nil => rfl
    | cons c cs => exact absurd h (by simp [String.length])

/-- Sanitizing a non-empty string yields a non-empty string. -/
lemma sanitize_ne_empty (s : String) (h : s ≠ "") : sanitize s ≠ "" := by
  intro hc
  apply h
  have h1 : (sanitize s).length = 0 := by rw [hc]; rfl
  rw [sanitize_length] at h1
  exact string_eq_empty_of_length s h1

/-- Decimal digit characters are digits. -/
lemma digitChar_isDigit : ∀ d : Nat, d < 10 → (Nat.digitChar d).isDigit = true := by
  decide

set_option maxHeartbeats 1000000 in
/-- Zero-padding behaviour of the two-digit timestamp fields. -/
lemma padStart2_toString_spec :
    ∀ n : Nat, n < 100 → (padStart2 (toString n)).length = 2 ∧
      ∀ c ∈ (padStart2 (toString n)).data, c.isDigit = true := by
  decide

/-- Decimal digit expansion of a four-digit number. -/
lemma toDigitsCore_year (f n : Nat) (h1 : 1000 ≤ n) (h2 : n < 10000) :
    Nat.toDigitsCore 10 (f + 4) n [] =
      [Nat.digitChar (n / 10 / 10 / 10 % 10), Nat.digitChar (n / 10 / 10 % 10),
       Nat.digitChar (n / 10 % 10), Nat.digitChar (n % 10)] := by
  have e1 : n / 10 ≠ 0 := by omega
  have e2 : n / 10 / 10 ≠ 0 := by omega
  have e3 : n / 10 / 10 / 10 ≠ 0 := by omega
  have e4 : n / 10 / 10 / 10 / 10 = 0 := by omega
  simp [Nat.toDigitsCore, e1, e2, e3, e4]

/-- The decimal representation of a four-digit year has exactly four
characters, all digits. -/
lemma repr_year (n : Nat) (h1 : 999 < n) (h2 : n < 10000) :
    (Nat.repr n).length = 4 ∧ ∀ c ∈ (Nat.repr n).data, c.isDigit = true := by
  have hrepr : Nat.repr n = ⟨Nat.toDigitsCore 10 ((n - 3) + 4) n []⟩ := by
    show (Nat.toDigits 10 n).asString = _
    unfold Nat.toDigits List.asString
    rw [show n + 1 = (n - 3) + 4 by omega]
  rw [hrepr, toDigitsCore_year (n - 3) n (by omega) h2]
  refine ⟨rfl, ?_⟩
  intro c hc
  simp only [String.data] at hc
  simp at hc
  rcases hc with rfl | rfl | rfl | rfl <;> exact digitChar_isDigit _ (by omega)

/-- C8: the output filename is `sanitize(title or "slideshow") + "_" +
timestamp + ".pdf"`; the timestamp is the year's decimal numeral followed
by zero-padded two-digit month, day and (after an underscore) hours,
minutes, seconds — for in-range instants a `YYYYMMDD_HHMMSS` string of
digits — and the title `"My Trip!"` at the given instant yields
`My_Trip__20261011_140509.pdf`. -/
theorem output_filename_spec :
    (∀ (title : String) (now : JsDate),
      outputFilenameOf title now =
        sanitize (if title = "" then "slideshow" else title) ++ "_" ++
          getTimestamp now ++ ".pdf") ∧
    (∀ now : JsDate, 999 < now.year → now.year < 10000 →
      now.month + 1 ≤ 12 → now.day ≤ 31 → now.hours ≤ 23 →
      now.minutes ≤ 59 → now.seconds ≤ 59 →
      getTimestamp now =
        toString now.year ++ padStart2 (toString (now.month + 1)) ++
          padStart2 (toString now.day) ++ "_" ++
          padStart2 (toString now.hours) ++ padStart2 (toString now.minutes) ++
          padStart2 (toString now.seconds) ∧
      (toString now.year).length = 4 ∧
      (∀ c ∈ (toString now.year).data, c.isDigit = true) ∧
      (padStart2 (toString (now.month + 1))).length = 2 ∧
      (∀ c ∈ (padStart2 (toString (now.month + 1))).data, c.isDigit = true) ∧
      (padStart2 (toString now.day)).length = 2 ∧
      (∀ c ∈ (padStart2 (toString now.day)).data, c.isDigit = true) ∧
      (padStart2 (toString now.hours)).length = 2 ∧
      (∀ c ∈ (padStart2 (toString now.hours)).data, c.isDigit = true) ∧
      (padStart2 (toString now.minutes)).length = 2 ∧
      (∀ c ∈ (padStart2 (toString now.minutes)).data, c.isDigit = true) ∧
      (padStart2 (toString now.seconds)).length = 2 ∧
      (∀ c ∈ (padStart2 (toString now.seconds)).data, c.isDigit = true)) ∧
    outputFilenameOf "My Trip!"
        { year := 2026, month := 9, day := 11, hours := 14, minutes := 5,
          seconds := 9 } = "My_Trip__20261011_140509.pdf" := by
  refine ⟨?_, ?_, by decide⟩
  · intro title now
    unfold outputFilenameOf baseNameOf
    by_cases h : title = ""
    · subst h
      rw [if_pos (show sanitize "" = "" from rfl), if_pos rfl]
      rw [show sanitize "slideshow" = "slideshow" from by decide]
    · rw [if_neg (sanitize_ne_empty title h), if_neg h]
  · intro now hy1 hy2 hmo hd hh hmi hs
    have hyear := repr_year now.year hy1 hy2
    exact ⟨rfl, hyear.1, hyear.2,
      (padStart2_toString_spec (now.month + 1) (by omega)).1,
      (padStart2_toString_spec (now.month + 1) (by omega)).2,
      (padStart2_toString_spec now.day (by omega)).1,
      (padStart2_toString_spec now.day (by omega)).2,
      (padStart2_toString_spec now.hours (by omega)).1,
      (padStart2_toString_spec now.hours (by omega)).2,
      (padStart2_toString_spec now.minutes (by omega)).1,
      (padStart2_toString_spec now.minutes (by omega)).2,
      (padStart2_toString_spec now.seconds (by omega)).1,
      (padStart2_toString_spec now.seconds (by omega)).2⟩

/-- Witness for `output_filename_spec` at a concrete instant. -/
theorem output_filename_spec_witness :
    getTimestamp
        { year := 2026, month := 9, day := 11, hours := 14, minutes := 5,
          seconds := 9 } =
      toString 2026 ++ padStart2 (toString (9 + 1)) ++
        padStart2 (toString 11) ++ "_" ++ padStart2 (toString 14) ++
        padStart2 (toString 5) ++ padStart2 (toString 9) ∧
    (toString (2026 : Nat)).length = 4 ∧
    (∀ c ∈ (toString (2026 : Nat)).data, c.isDigit = true) ∧
    (padStart2 (toString (9 + 1 : Nat))).length = 2 ∧
    (∀ c ∈ (padStart2 (toString (9 + 1 : Nat))).data, c.isDigit = true) ∧
    (padStart2 (toString (11 : Nat))).length = 2 ∧
    (∀ c ∈ (padStart2 (toString (11 : Nat))).data, c.isDigit = true) ∧
    (padStart2 (toString (14 : Nat))).length = 2 ∧
    (∀ c ∈ (padStart2 (toString (14 : Nat))).data, c.isDigit = true) ∧
    (padStart2 (toString (5 : Nat))).length = 2 ∧
    (∀ c ∈ (padStart2 (toString (5 : Nat))).data, c.isDigit = true) ∧
    (padStart2 (toString (9 : Nat))).length = 2 ∧
    (∀ c ∈ (padStart2 (toString (9 : Nat))).data, c.isDigit = true) :=
  output_filename_spec.2.1
    { year := 2026, month := 9, day := 11, hours := 14, minutes := 5,
      seconds := 9 }
    (by norm_num) (by norm_num) (by norm_num) (by norm_num) (by norm_num)
    (by norm_num) (by norm_num)

end Slideshow
